import Mathlib

/-!
Verification of the transaction-status resolution command (`check_txn_status`)
of a distributed MVCC key-value store.

The command examined here is `CheckTxnStatus::process_write` from
`src/storage/txn/commands/check_txn_status.rs`.  The command operates on a
single primary key, so the store state is modelled for that one key: an
optional lock plus the list of write records for the key, together with the
timestamp authority's watermark.

Collaborators that live outside the provided sources (the `txn_types`
timestamp/lock data model, `check_write_and_rollback_lock` and
`check_txn_status_missing_lock` of the MVCC transaction module) are modelled
from the specification; each such definition says so in its doc comment.
-/

namespace CheckTxn

/-- `u64::MAX`, the reserved "no upper bound" sentinel timestamp. -/
def U64MAX : Nat := 2 ^ 64 - 1

/-- Modelled from the spec: a timestamp is an unsigned 64-bit value whose high
bits are physical milliseconds and whose low 18 bits are a logical counter
(the `txn_types` crate implementing `TimeStamp` is not among the sources).
`physical()` drops the logical counter. -/
def tsPhysical (ts : Nat) : Nat := ts / 2 ^ 18

/-- Modelled from the spec: `TimeStamp::is_max`, the "no bound" sentinel test. -/
def tsIsMax (ts : Nat) : Bool := ts == U64MAX

/-- Modelled from the spec: `TimeStamp::is_zero`. -/
def tsIsZero (ts : Nat) : Bool := ts == 0

/-- Modelled from the spec: `TimeStamp::next`, the immediate successor. -/
def tsNext (ts : Nat) : Nat := ts + 1

/-- Modelled from the spec: `TimeStamp::compose(physical, logical)`. -/
def tsCompose (physical logical : Nat) : Nat := physical * 2 ^ 18 + logical

/-- Modelled from the spec: the persisted lock record.  Fields irrelevant to
this command (primary key, short value, ...) are omitted. -/
structure Lock where
  ts : Nat
  ttl : Nat
  for_update_ts : Nat
  min_commit_ts : Nat
  use_async_commit : Bool
deriving Repr, DecidableEq

/-- Modelled from the spec: the type tag of a write record. -/
inductive WriteType where
  | Put
  | Delete
  | Lock
  | Rollback
deriving Repr, DecidableEq

/-- Modelled from the spec: an immutable write record for the key, keyed by
`commit_ts`, recording the owning transaction's `start_ts`, its type, and
whether a rollback is protected. -/
structure WriteRecord where
  start_ts : Nat
  commit_ts : Nat
  wtype : WriteType
  isProtected : Bool
deriving Repr, DecidableEq

/-- The resolution outcome, mirroring `TxnStatus` of the source. -/
inductive TxnStatus where
  | RolledBack
  | TtlExpire
  | Committed (commit_ts : Nat)
  | Uncommitted (lock : Lock) (min_commit_ts_pushed : Bool)
  | LockNotExist
deriving Repr, DecidableEq

/-- A released waiter: the rolled-back transaction's `start_ts` and whether
the removed lock was pessimistic. -/
structure ReleasedLock where
  start_ts : Nat
  pessimistic : Bool
deriving Repr, DecidableEq

/-- The store state visible to the command, restricted to the primary key it
operates on: the key's lock slot, the key's write records, and the timestamp
authority's watermark. -/
structure TsState where
  lock : Option Lock
  writes : List WriteRecord
  maxTs : Nat
deriving Repr, DecidableEq

/-- Errors the command can surface: `TxnNotFound` from the missing-lock
resolver, and the `assert!(!lock.use_async_commit)` of the push branch. -/
inductive ChkErr where
  | TxnNotFound
  | AssertionFailure
deriving Repr, DecidableEq

/-- Full outcome of one `process_write` invocation: the arguments of every
`update_max_ts` call made, and either an error or the classification together
with the post-state and the released waiter. -/
structure CheckOutcome where
  maxTsCalls : List Nat
  result : Except ChkErr (TxnStatus × TsState × Option ReleasedLock)

/-- Modelled from the spec: `check_txn_status_missing_lock` of the MVCC
transaction module (not among the sources).  Per spec 4.2: scan the key's
write records for one whose `start_ts` equals `lock_ts`; Put/Delete/Lock
means the transaction committed at that record's `commit_ts`; Rollback means
it was rolled back; if none exists, either fabricate a protected Rollback
record at `lock_ts` and answer `LockNotExist` (`rollback_if_not_exist`),
or fail with `TxnNotFound`. -/
def check_txn_status_missing_lock (s : TsState) (lock_ts : Nat)
    (rollback_if_not_exist : Bool) : Except ChkErr (TxnStatus × TsState) :=
  match s.writes.find? (fun w => w.start_ts == lock_ts) with
  | some w =>
      if w.wtype = WriteType.Rollback then
        Except.ok (TxnStatus.RolledBack, s)
      else
        Except.ok (TxnStatus.Committed w.commit_ts, s)
  | none =>
      if rollback_if_not_exist then
        Except.ok (TxnStatus.LockNotExist,
          { s with writes := ⟨lock_ts, lock_ts, WriteType.Rollback, true⟩ :: s.writes })
      else
        Except.error ChkErr.TxnNotFound

/-- Modelled from the spec: `check_write_and_rollback_lock` of the MVCC
transaction module (not among the sources).  Per spec 4.3b: remove the
expired lock, mark the transaction rolled back by a Rollback write record at
its `start_ts`, and hand back the released waiter with the pessimism flag.
(The spec does not fix the protection bit of this record; no claim below
depends on it.) -/
def check_write_and_rollback_lock (s : TsState) (lock : Lock)
    (is_pessimistic_txn : Bool) : TsState × Option ReleasedLock :=
  ({ s with
      lock := none,
      writes := ⟨lock.ts, lock.ts, WriteType.Rollback, true⟩ :: s.writes },
   some ⟨lock.ts, is_pessimistic_txn⟩)

/-- Lines 61-67 of the source: the value handed to `update_max_ts` — start
from `lock_ts` and fold in `current_ts` then `caller_start_ts`, each skipped
when it is the sentinel max. -/
def newMaxTs (lock_ts caller_start_ts current_ts : Nat) : Nat :=
  let m1 := lock_ts
  let m2 := if !tsIsMax current_ts && decide (current_ts > m1) then current_ts else m1
  if !tsIsMax caller_start_ts && decide (caller_start_ts > m2) then caller_start_ts else m2

/-- Lines 90-100 of the source: when the lock uses async commit and either
timestamp is nonzero, both are normalized to zero before any further use. -/
def normalize (lock : Lock) (caller_start_ts current_ts : Nat) : Nat × Nat :=
  if lock.use_async_commit && (!tsIsZero caller_start_ts || !tsIsZero current_ts) then
    (0, 0)
  else
    (caller_start_ts, current_ts)

/-- Lines 89-143 of the source: the branch taken when the loaded lock's `ts`
equals `lock_ts` — normalize for async commit, check TTL expiry on physical
components, otherwise compute the push-forward of `min_commit_ts`.  The
`assert!(!lock.use_async_commit)` of line 130 is modelled as an
`AssertionFailure` error. -/
def liveLock (s : TsState) (lock : Lock) (caller_start_ts current_ts : Nat) :
    Except ChkErr (TxnStatus × TsState × Option ReleasedLock) :=
  let n := normalize lock caller_start_ts current_ts
  let caller := n.1
  let current := n.2
  let is_pessimistic_txn := !tsIsZero lock.for_update_ts
  if tsPhysical lock.ts + lock.ttl < tsPhysical current then
    let r := check_write_and_rollback_lock s lock is_pessimistic_txn
    Except.ok (TxnStatus.TtlExpire, r.1, r.2)
  else
    if !tsIsZero lock.min_commit_ts && !tsIsMax caller
        && decide (caller ≥ lock.min_commit_ts) then
      if lock.use_async_commit then
        Except.error ChkErr.AssertionFailure
      else
        let mct0 := tsNext caller
        let mct := if mct0 < current then current else mct0
        let lock2 := { lock with min_commit_ts := mct }
        Except.ok (TxnStatus.Uncommitted lock2 true, { s with lock := some lock2 }, none)
    else
      Except.ok (TxnStatus.Uncommitted lock (tsIsMax caller), s, none)

/-- Lines 60-174 of the source: `CheckTxnStatus::process_write`.  First the
timestamp authority's watermark is raised with `newMaxTs` (the single
`update_max_ts` call, recorded in `maxTsCalls`), then the key's lock is
loaded; a matching live lock goes to `liveLock`, anything else to the
missing-lock resolver. -/
def process_write (s : TsState) (lock_ts caller_start_ts current_ts : Nat)
    (rollback_if_not_exist : Bool) : CheckOutcome :=
  let nmt := newMaxTs lock_ts caller_start_ts current_ts
  let s1 : TsState := { s with maxTs := max s.maxTs nmt }
  let result :=
    match s1.lock with
    | some lock =>
        if lock.ts = lock_ts then
          liveLock s1 lock caller_start_ts current_ts
        else
          (check_txn_status_missing_lock s1 lock_ts rollback_if_not_exist).map
            (fun p => (p.1, p.2, none))
    | none =>
        (check_txn_status_missing_lock s1 lock_ts rollback_if_not_exist).map
          (fun p => (p.1, p.2, none))
  { maxTsCalls := [nmt], result := result }

/-- The classification of an outcome, when no error occurred. -/
def statusOf (o : CheckOutcome) : Option TxnStatus :=
  match o.result with
  | Except.ok p => some p.1
  | Except.error _ => none

/-- The `min_commit_ts_pushed` flag of an `Uncommitted` outcome. -/
def pushedOf (o : CheckOutcome) : Option Bool :=
  match o.result with
  | Except.ok (TxnStatus.Uncommitted _ p, _, _) => some p
  | _ => none

/-- The key's lock slot in the post-state, when no error occurred. -/
def stateLockOf (o : CheckOutcome) : Option (Option Lock) :=
  match o.result with
  | Except.ok p => some p.2.1.lock
  | Except.error _ => none

/-! ## Helper lemmas -/

theorem ite_lt_eq_max (a c : Nat) : (if a < c then c else a) = max a c := by
  rw [Nat.max_def]; split <;> split <;> omega

theorem normalize_async (l : Lock) (a b : Nat) (h : l.use_async_commit = true) :
    normalize l a b = (0, 0) := by
  simp only [normalize, h, Bool.true_and]
  split
  · rfl
  · rename_i hcond
    simp only [tsIsZero, Bool.or_eq_true, Bool.not_eq_true', beq_eq_false_iff_ne, ne_eq,
      not_or, not_not] at hcond
    simp [hcond.1, hcond.2]

theorem normalize_not_async (l : Lock) (a b : Nat) (h : l.use_async_commit = false) :
    normalize l a b = (a, b) := by
  simp [normalize, h]

theorem tsPhysical_zero : tsPhysical 0 = 0 := rfl

/-! ## Claims -/

/-- C8: on every invocation, `update_max_ts` is called exactly once, with the
maximum of `lock_ts`, `caller_start_ts` (excluded when it is the sentinel
max) and `current_ts` (excluded when it is the sentinel max).  The statement
holds for every store state `s`, so the argument of the call is independent
of the loaded lock; in `process_write` the watermark update is performed
before the lock is examined and before any mutation is produced. -/
theorem c8_update_max_ts (s : TsState) (lock_ts caller_start_ts current_ts : Nat)
    (rollback_if_not_exist : Bool) :
    (process_write s lock_ts caller_start_ts current_ts rollback_if_not_exist).maxTsCalls
      = [max lock_ts (max (if tsIsMax caller_start_ts then 0 else caller_start_ts)
          (if tsIsMax current_ts then 0 else current_ts))] := by
  have h : newMaxTs lock_ts caller_start_ts current_ts
      = max lock_ts (max (if tsIsMax caller_start_ts then 0 else caller_start_ts)
          (if tsIsMax current_ts then 0 else current_ts)) := by
    simp only [newMaxTs]
    rcases hb : tsIsMax caller_start_ts <;> rcases hc : tsIsMax current_ts <;>
      simp only [hb, hc, Bool.not_true, Bool.not_false, Bool.false_and, Bool.true_and,
        Bool.false_eq_true, decide_eq_true_eq, if_true, if_false] <;>
      (try split_ifs) <;> omega
  simp only [process_write, h]

/-- C6: a status check on a live matching lock whose `min_commit_ts` is zero
never sets it to a nonzero value — whenever the post-state still holds a
lock, that lock's `min_commit_ts` is zero. -/
theorem c6_legacy_lock_invariant (s : TsState) (lock_ts caller_start_ts current_ts : Nat)
    (rollback_if_not_exist : Bool) (l : Lock)
    (hl : s.lock = some l) (hts : l.ts = lock_ts) (hmin : l.min_commit_ts = 0) :
    ∃ p, (process_write s lock_ts caller_start_ts current_ts rollback_if_not_exist).result
        = Except.ok p ∧
      ∀ l', p.2.1.lock = some l' → l'.min_commit_ts = 0 := by
  simp only [process_write, hl, hts, if_true, liveLock, hmin]
  simp only [tsIsZero, Nat.beq_refl, Bool.not_true, Bool.false_and, Bool.if_false_left]
  split
  · exact ⟨_, rfl, by intro l' h; simp [check_write_and_rollback_lock] at h⟩
  · refine ⟨_, rfl, ?_⟩
    intro l' h
    simp only [Option.some.injEq] at h
    rw [← h, hmin]

/-- C9: checking an async-commit lock never fails: the nonzero caller and
current timestamps are normalized to zero, the TTL comparison then cannot
classify the lock expired, the push branch is never reached (so the
`assert!(!lock.use_async_commit)` never fires), and the result is
`Uncommitted` with the stored lock unchanged and `min_commit_ts_pushed =
false`. -/
theorem c9_async_commit_safe (s : TsState) (lock_ts caller_start_ts current_ts : Nat)
    (rollback_if_not_exist : Bool) (l : Lock)
    (hl : s.lock = some l) (hts : l.ts = lock_ts) (hasync : l.use_async_commit = true) :
    (process_write s lock_ts caller_start_ts current_ts rollback_if_not_exist).result
      = Except.ok (TxnStatus.Uncommitted l false,
          ⟨some l, s.writes,
            max s.maxTs (newMaxTs lock_ts caller_start_ts current_ts)⟩, none) := by
  have hnorm := normalize_async l caller_start_ts current_ts hasync
  by_cases hm : l.min_commit_ts = 0 <;>
    simp [process_write, hl, hts, liveLock, hnorm, tsPhysical, tsIsZero, tsIsMax, U64MAX, hm]

/-- C6 witness: a pessimistic lock with `min_commit_ts = 0` (the src test's
`ts = (290,0)` scenario), checked with `caller_start_ts = current_ts =
(300,0)`: whatever lock remains stored still has `min_commit_ts = 0`. -/
theorem c6_witness :
    ∃ p, (process_write ⟨some ⟨tsCompose 290 0, 100, tsCompose 290 0, 0, false⟩, [], 0⟩
          (tsCompose 290 0) (tsCompose 300 0) (tsCompose 300 0) true).result
        = Except.ok p ∧ ∀ l', p.2.1.lock = some l' → l'.min_commit_ts = 0 :=
  c6_legacy_lock_invariant ⟨some ⟨tsCompose 290 0, 100, tsCompose 290 0, 0, false⟩, [], 0⟩
    (tsCompose 290 0) (tsCompose 300 0) (tsCompose 300 0) true
    ⟨tsCompose 290 0, 100, tsCompose 290 0, 0, false⟩ rfl rfl rfl

/-- C9 witness: an async-commit lock probed with nonzero `caller_start_ts =
5` and `current_ts = 12` succeeds, leaves the lock unchanged and reports the
flag `false`. -/
theorem c9_witness :
    (process_write ⟨some ⟨1, 100, 0, 2, true⟩, [], 0⟩ 1 5 12 true).result
      = Except.ok (TxnStatus.Uncommitted ⟨1, 100, 0, 2, true⟩ false,
          ⟨some ⟨1, 100, 0, 2, true⟩, [], max 0 (newMaxTs 1 5 12)⟩, none) :=
  c9_async_commit_safe ⟨some ⟨1, 100, 0, 2, true⟩, [], 0⟩ 1 5 12 true
    ⟨1, 100, 0, 2, true⟩ rfl rfl rfl

/-- C1 (amended): on a live matching lock that is not TTL-expired and does
not use async commit, a check with `caller_start_ts` at the sentinel max
returns `Uncommitted` with `min_commit_ts_pushed = true` while leaving the
stored lock unchanged.  (For an async-commit lock the sentinel timestamp is
normalized to zero first, and the flag is reported `false` — see the
counterexample.) -/
theorem c1_sentinel_pushed (s : TsState) (lock_ts current_ts : Nat)
    (rollback_if_not_exist : Bool) (l : Lock)
    (hl : s.lock = some l) (hts : l.ts = lock_ts) (hasync : l.use_async_commit = false)
    (hlive : ¬ (tsPhysical l.ts + l.ttl < tsPhysical current_ts)) :
    (process_write s lock_ts U64MAX current_ts rollback_if_not_exist).result
      = Except.ok (TxnStatus.Uncommitted l true,
          ⟨some l, s.writes, max s.maxTs (newMaxTs lock_ts U64MAX current_ts)⟩, none) := by
  have hnorm := normalize_not_async l U64MAX current_ts hasync
  have hlive' : ¬ tsPhysical lock_ts + l.ttl < tsPhysical current_ts := by
    rw [← hts]; exact hlive
  simp [process_write, hl, hts, liveLock, hnorm, hlive', tsIsMax]

/-- C1 witness: lock `ts = 10, ttl = 100, min_commit_ts = 12`, checked with
the sentinel caller and `current_ts = 12`. -/
theorem c1_witness :
    (process_write ⟨some ⟨10, 100, 0, 12, false⟩, [], 0⟩ 10 U64MAX 12 true).result
      = Except.ok (TxnStatus.Uncommitted ⟨10, 100, 0, 12, false⟩ true,
          ⟨some ⟨10, 100, 0, 12, false⟩, [], max 0 (newMaxTs 10 U64MAX 12)⟩, none) :=
  c1_sentinel_pushed _ 10 12 true _ rfl rfl rfl (by decide)

/-- C1 counterexample: for an async-commit lock, a check with the sentinel
`caller_start_ts` reports `min_commit_ts_pushed = false`, not `true`: the
sentinel is normalized to zero before the flag is computed (matching the
source's own test `test_check_async_commit_txn_status`). -/
theorem c1_counterexample :
    pushedOf (process_write ⟨some ⟨10, 100, 0, 12, true⟩, [], 0⟩ 10 U64MAX 12 true)
        = some false ∧ some false ≠ some true :=
  ⟨rfl, by decide⟩

/-- C2 (amended): on a live matching non-expired lock that does not use
async commit, `min_commit_ts` is advanced exactly when `min_commit_ts ≠ 0`,
`caller_start_ts` is not the sentinel max, and `caller_start_ts ≥
min_commit_ts`; the new value is `max (caller_start_ts.next()) current_ts`,
the updated lock is persisted in the store, and the result is `Uncommitted`
of the updated lock with `min_commit_ts_pushed = true`.  When the condition
fails the stored lock is unchanged.  (For an async-commit lock both
timestamps are normalized to zero first, so no push happens even when the
given inputs satisfy the three conditions — see the counterexample.) -/
theorem c2_push_forward (s : TsState) (lock_ts caller_start_ts current_ts : Nat)
    (rollback_if_not_exist : Bool) (l : Lock)
    (hl : s.lock = some l) (hts : l.ts = lock_ts) (hasync : l.use_async_commit = false)
    (hlive : ¬ (tsPhysical l.ts + l.ttl < tsPhysical current_ts)) :
    (l.min_commit_ts ≠ 0 ∧ tsIsMax caller_start_ts = false ∧
        l.min_commit_ts ≤ caller_start_ts →
      (process_write s lock_ts caller_start_ts current_ts rollback_if_not_exist).result
        = Except.ok
            (TxnStatus.Uncommitted
              { l with min_commit_ts := max (tsNext caller_start_ts) current_ts } true,
             ⟨some { l with min_commit_ts := max (tsNext caller_start_ts) current_ts },
              s.writes, max s.maxTs (newMaxTs lock_ts caller_start_ts current_ts)⟩, none))
    ∧ (¬ (l.min_commit_ts ≠ 0 ∧ tsIsMax caller_start_ts = false ∧
          l.min_commit_ts ≤ caller_start_ts) →
      (process_write s lock_ts caller_start_ts current_ts rollback_if_not_exist).result
        = Except.ok (TxnStatus.Uncommitted l (tsIsMax caller_start_ts),
            ⟨some l, s.writes, max s.maxTs (newMaxTs lock_ts caller_start_ts current_ts)⟩,
            none)) := by
  have hnorm := normalize_not_async l caller_start_ts current_ts hasync
  have hlive' : ¬ tsPhysical lock_ts + l.ttl < tsPhysical current_ts := by
    rw [← hts]; exact hlive
  constructor
  · rintro ⟨h1, h2, h3⟩
    have hz : tsIsZero l.min_commit_ts = false := by simp [tsIsZero, h1]
    have hge : decide (caller_start_ts ≥ l.min_commit_ts) = true := by
      simp [ge_iff_le, h3]
    simp [process_write, hl, hts, liveLock, hnorm, hlive', hz, h2, hge, hasync,
      ite_lt_eq_max, tsNext]
  · intro hneg
    have hcond : (!tsIsZero l.min_commit_ts && !tsIsMax caller_start_ts
        && decide (caller_start_ts ≥ l.min_commit_ts)) = false := by
      rcases Decidable.em (l.min_commit_ts = 0) with h | h
      · simp [tsIsZero, h]
      · rcases hb : tsIsMax caller_start_ts
        · have h3 : ¬ l.min_commit_ts ≤ caller_start_ts := fun hc => hneg ⟨h, hb, hc⟩
          simp [tsIsZero, h, hb, ge_iff_le, h3]
        · simp [hb]
    simp [process_write, hl, hts, liveLock, hnorm, hlive', hcond]

/-- C2 witness: the spec scenario — lock at `ts = (5,0)`, `ttl = 100`,
`min_commit_ts = (5,1)`, checked with `caller_start_ts = (6,0)` and
`current_ts = (7,0)` yields `Uncommitted` with `min_commit_ts = (7,0)` and
the flag set, and the updated lock persisted. -/
theorem c2_witness :
    (process_write ⟨some ⟨tsCompose 5 0, 100, 0, tsCompose 5 1, false⟩, [], 0⟩
        (tsCompose 5 0) (tsCompose 6 0) (tsCompose 7 0) true).result
      = Except.ok
          (TxnStatus.Uncommitted ⟨tsCompose 5 0, 100, 0, tsCompose 7 0, false⟩ true,
           ⟨some ⟨tsCompose 5 0, 100, 0, tsCompose 7 0, false⟩, [], tsCompose 7 0⟩,
           none) := by
  have h := (c2_push_forward ⟨some ⟨tsCompose 5 0, 100, 0, tsCompose 5 1, false⟩, [], 0⟩
      (tsCompose 5 0) (tsCompose 6 0) (tsCompose 7 0) true _ rfl rfl rfl
      (by decide)).1 (by refine ⟨by decide, by decide, by decide⟩)
  exact h

/-- C2 counterexample: an async-commit lock with `min_commit_ts = 2`,
checked with `caller_start_ts = 5` (not the sentinel, and `≥ 2`) and
`current_ts = 0`: the three conditions hold on the inputs, yet the stored
`min_commit_ts` stays `2` instead of being advanced to
`max (5+1) 0 = 6`, and the flag is reported `false`. -/
theorem c2_counterexample :
    (process_write ⟨some ⟨10, 100, 0, 2, true⟩, [], 0⟩ 10 5 0 true).result
      = Except.ok (TxnStatus.Uncommitted ⟨10, 100, 0, 2, true⟩ false,
          ⟨some ⟨10, 100, 0, 2, true⟩, [], 10⟩, none)
    ∧ ((2 : Nat) ≠ 0 ∧ tsIsMax 5 = false ∧ (2 : Nat) ≤ 5)
    ∧ (2 : Nat) ≠ max (tsNext 5) 0 :=
  ⟨rfl, by decide, by decide⟩

/-- C3 (amended): on a live matching lock that does not use async commit,
the check classifies the lock expired exactly when
`lock.ts.physical + lock.ttl < current_ts.physical` (only physical
components enter the comparison), and in that case removes the lock, marks
the transaction rolled back, and collects the released waiter with the
pessimism flag `for_update_ts ≠ 0`.  (For an async-commit lock a nonzero
`current_ts` is first normalized to zero, so the lock is never classified
expired — see the counterexample.) -/
theorem c3_ttl_expiry_iff (s : TsState) (lock_ts caller_start_ts current_ts : Nat)
    (rollback_if_not_exist : Bool) (l : Lock)
    (hl : s.lock = some l) (hts : l.ts = lock_ts) (hasync : l.use_async_commit = false) :
    (statusOf (process_write s lock_ts caller_start_ts current_ts rollback_if_not_exist)
        = some TxnStatus.TtlExpire
      ↔ tsPhysical l.ts + l.ttl < tsPhysical current_ts)
    ∧ (tsPhysical l.ts + l.ttl < tsPhysical current_ts →
        (process_write s lock_ts caller_start_ts current_ts rollback_if_not_exist).result
          = Except.ok (TxnStatus.TtlExpire,
              ⟨none, ⟨l.ts, l.ts, WriteType.Rollback, true⟩ :: s.writes,
               max s.maxTs (newMaxTs lock_ts caller_start_ts current_ts)⟩,
              some ⟨l.ts, !tsIsZero l.for_update_ts⟩)) := by
  have hnorm := normalize_not_async l caller_start_ts current_ts hasync
  by_cases hexp : tsPhysical l.ts + l.ttl < tsPhysical current_ts
  · have hexp' : tsPhysical lock_ts + l.ttl < tsPhysical current_ts := hts ▸ hexp
    refine ⟨⟨fun _ => hexp, fun _ => ?_⟩, fun _ => ?_⟩ <;>
      simp [statusOf, process_write, hl, hts, liveLock, hnorm, hexp',
        check_write_and_rollback_lock]
  · have hexp' : ¬ tsPhysical lock_ts + l.ttl < tsPhysical current_ts := by
      rw [← hts]; exact hexp
    refine ⟨⟨fun habs => ?_, fun h => absurd h hexp⟩, fun h => absurd h hexp⟩
    rcases hc : (!tsIsZero l.min_commit_ts && !tsIsMax caller_start_ts
        && decide (caller_start_ts ≥ l.min_commit_ts)) <;>
      simp [statusOf, process_write, hl, hts, liveLock, hnorm, hexp', hc, hasync] at habs

/-- C3 witness: lock at `ts = (20,0)`, `ttl = 100`: with `current_ts =
(21,105)` the physical difference is 1 ms so the lock is not expired
(logical counters do not count), while with `current_ts = (121,0)` it is
expired and removed. -/
theorem c3_witness :
    (statusOf (process_write ⟨some ⟨tsCompose 20 0, 100, 0, tsCompose 20 1, false⟩, [], 0⟩
          (tsCompose 20 0) (tsCompose 21 105) (tsCompose 21 105) true)
        = some TxnStatus.TtlExpire
      ↔ tsPhysical (tsCompose 20 0) + 100 < tsPhysical (tsCompose 21 105))
    ∧ (process_write ⟨some ⟨tsCompose 20 0, 100, 0, tsCompose 20 1, false⟩, [], 0⟩
          (tsCompose 20 0) (tsCompose 121 0) (tsCompose 121 0) true).result
        = Except.ok (TxnStatus.TtlExpire,
            ⟨none, [⟨tsCompose 20 0, tsCompose 20 0, WriteType.Rollback, true⟩],
             tsCompose 121 0⟩,
            some ⟨tsCompose 20 0, false⟩) := by
  constructor
  · exact (c3_ttl_expiry_iff
      ⟨some ⟨tsCompose 20 0, 100, 0, tsCompose 20 1, false⟩, [], 0⟩
      (tsCompose 20 0) (tsCompose 21 105) (tsCompose 21 105) true
      ⟨tsCompose 20 0, 100, 0, tsCompose 20 1, false⟩ rfl rfl rfl).1
  · exact (c3_ttl_expiry_iff
      ⟨some ⟨tsCompose 20 0, 100, 0, tsCompose 20 1, false⟩, [], 0⟩
      (tsCompose 20 0) (tsCompose 121 0) (tsCompose 121 0) true
      ⟨tsCompose 20 0, 100, 0, tsCompose 20 1, false⟩ rfl rfl rfl).2 (by decide)

/-- C3 counterexample: an async-commit lock probed with `current_ts` at the
sentinel max: `lock.ts.physical + ttl < current_ts.physical` holds, yet the
status is `Uncommitted`, not `TtlExpire` — `current_ts` was normalized to
zero before the TTL comparison (matching the source's own test
`test_check_async_commit_txn_status`). -/
theorem c3_counterexample :
    statusOf (process_write ⟨some ⟨1, 100, 0, 2, true⟩, [], 0⟩ 1 12 U64MAX true)
        = some (TxnStatus.Uncommitted ⟨1, 100, 0, 2, true⟩ false)
    ∧ tsPhysical 1 + 100 < tsPhysical U64MAX
    ∧ some (TxnStatus.Uncommitted ⟨1, 100, 0, 2, true⟩ false)
        ≠ some TxnStatus.TtlExpire :=
  ⟨rfl, by decide, by decide⟩

/-- C10: on a live matching lock that does not use async commit, the
sentinel max `current_ts` is not excluded from the expiry arithmetic:
whenever `lock.ts.physical + lock.ttl < U64MAX.physical`, the check
classifies the lock `TtlExpire` and removes it. -/
theorem c10_sentinel_current_expires (s : TsState) (lock_ts caller_start_ts : Nat)
    (rollback_if_not_exist : Bool) (l : Lock)
    (hl : s.lock = some l) (hts : l.ts = lock_ts) (hasync : l.use_async_commit = false)
    (hexp : tsPhysical l.ts + l.ttl < tsPhysical U64MAX) :
    (process_write s lock_ts caller_start_ts U64MAX rollback_if_not_exist).result
      = Except.ok (TxnStatus.TtlExpire,
          ⟨none, ⟨l.ts, l.ts, WriteType.Rollback, true⟩ :: s.writes,
           max s.maxTs (newMaxTs lock_ts caller_start_ts U64MAX)⟩,
          some ⟨l.ts, !tsIsZero l.for_update_ts⟩) := by
  have hnorm := normalize_not_async l caller_start_ts U64MAX hasync
  have hexp' : tsPhysical lock_ts + l.ttl < tsPhysical U64MAX := hts ▸ hexp
  simp [process_write, hl, hts, liveLock, hnorm, hexp', check_write_and_rollback_lock]

/-- C10 witness: the source's own scenario — lock at `ts = (270,0)`,
`ttl = 100`, checked with `current_ts = u64::MAX` is rolled back. -/
theorem c10_witness :
    (process_write ⟨some ⟨tsCompose 270 0, 100, 0, tsCompose 270 1, false⟩, [], 0⟩
        (tsCompose 270 0) (tsCompose 271 0) U64MAX true).result
      = Except.ok (TxnStatus.TtlExpire,
          ⟨none, [⟨tsCompose 270 0, tsCompose 270 0, WriteType.Rollback, true⟩],
           max 0 (newMaxTs (tsCompose 270 0) (tsCompose 271 0) U64MAX)⟩,
          some ⟨tsCompose 270 0, false⟩) :=
  c10_sentinel_current_expires _ (tsCompose 270 0) (tsCompose 271 0) true _
    rfl rfl rfl (by decide)

/-- C4: when no lock exists for the key and no write record carries
`start_ts = lock_ts`, a check with `rollback_if_not_exist = false` fails
with `TxnNotFound`.  In the embedding an error outcome carries no
post-state, mirroring the source, where the error propagates before any
write batch is assembled, so no storage mutation is performed. -/
theorem c4_txn_not_found (s : TsState) (lock_ts caller_start_ts current_ts : Nat)
    (hl : s.lock = none) (hw : ∀ w ∈ s.writes, w.start_ts ≠ lock_ts) :
    (process_write s lock_ts caller_start_ts current_ts false).result
      = Except.error ChkErr.TxnNotFound := by
  have hf : s.writes.find? (fun w => w.start_ts == lock_ts) = none := by
    rw [List.find?_eq_none]
    intro w hwmem
    simpa using hw w hwmem
  simp [process_write, hl, check_txn_status_missing_lock, hf, Except.map]

/-- C4 witness: empty store, `lock_ts = 3`, `rollback_if_not_exist = false`. -/
theorem c4_witness :
    (process_write ⟨none, [], 0⟩ 3 4 5 false).result
      = Except.error ChkErr.TxnNotFound :=
  c4_txn_not_found ⟨none, [], 0⟩ 3 4 5 rfl (by simp)

/-- C5 (amended): when no lock exists for the key and no write record
carries `start_ts = lock_ts`, a check with `rollback_if_not_exist = true`
returns `LockNotExist` and writes a protected Rollback record at `lock_ts`;
a second identical check afterwards finds that rollback record and returns
`RolledBack` without error (not `LockNotExist` — see the counterexample). -/
theorem c5_rollback_if_not_exist (s : TsState)
    (lock_ts caller_start_ts current_ts caller2 current2 : Nat)
    (hl : s.lock = none) (hw : ∀ w ∈ s.writes, w.start_ts ≠ lock_ts) :
    (process_write s lock_ts caller_start_ts current_ts true).result
      = Except.ok (TxnStatus.LockNotExist,
          ⟨none, ⟨lock_ts, lock_ts, WriteType.Rollback, true⟩ :: s.writes,
           max s.maxTs (newMaxTs lock_ts caller_start_ts current_ts)⟩, none)
    ∧ statusOf (process_write
          ⟨none, ⟨lock_ts, lock_ts, WriteType.Rollback, true⟩ :: s.writes,
           max s.maxTs (newMaxTs lock_ts caller_start_ts current_ts)⟩
          lock_ts caller2 current2 true)
        = some TxnStatus.RolledBack := by
  have hf : s.writes.find? (fun w => w.start_ts == lock_ts) = none := by
    rw [List.find?_eq_none]
    intro w hwmem
    simpa using hw w hwmem
  constructor
  · simp [process_write, hl, check_txn_status_missing_lock, hf, Except.map]
  · simp [statusOf, process_write, check_txn_status_missing_lock, List.find?, Except.map]

/-- C5 witness: empty store, `lock_ts = 3`: the first check fabricates the
protected rollback and answers `LockNotExist`; repeating the check on the
resulting state answers `RolledBack` without error. -/
theorem c5_witness :
    (process_write ⟨none, [], 0⟩ 3 4 5 true).result
      = Except.ok (TxnStatus.LockNotExist,
          ⟨none, [⟨3, 3, WriteType.Rollback, true⟩], max 0 (newMaxTs 3 4 5)⟩, none)
    ∧ statusOf (process_write ⟨none, [⟨3, 3, WriteType.Rollback, true⟩],
          max 0 (newMaxTs 3 4 5)⟩ 3 4 5 true)
        = some TxnStatus.RolledBack := by
  have h := c5_rollback_if_not_exist ⟨none, [], 0⟩ 3 4 5 4 5 rfl (by simp)
  simpa using h

/-- C5 counterexample: on an empty store, the first check with
`rollback_if_not_exist = true` returns `LockNotExist` and writes the
protected rollback, but a second identical check returns `RolledBack`,
not `LockNotExist` as the claim states (matching the source's own test,
which expects `RolledBack` once a rollback record exists for `lock_ts`). -/
theorem c5_counterexample :
    (process_write ⟨none, [], 0⟩ 5 6 7 true).result
      = Except.ok (TxnStatus.LockNotExist,
          ⟨none, [⟨5, 5, WriteType.Rollback, true⟩], 7⟩, none)
    ∧ statusOf (process_write ⟨none, [⟨5, 5, WriteType.Rollback, true⟩], 7⟩ 5 6 7 true)
        = some TxnStatus.RolledBack
    ∧ some TxnStatus.RolledBack ≠ some TxnStatus.LockNotExist :=
  ⟨rfl, rfl, by decide⟩

/-- C7: `min_commit_ts` never decreases: whenever a check succeeds and the
post-state still holds a lock, that lock's `min_commit_ts` is at least the
`min_commit_ts` of the lock held before the check. -/
theorem c7_min_commit_ts_monotonic (s : TsState) (lock_ts caller_start_ts current_ts : Nat)
    (rollback_if_not_exist : Bool) (l0 l1 : Lock)
    (p : TxnStatus × TsState × Option ReleasedLock)
    (h0 : s.lock = some l0)
    (hp : (process_write s lock_ts caller_start_ts current_ts rollback_if_not_exist).result
        = Except.ok p)
    (h1 : p.2.1.lock = some l1) :
    l0.min_commit_ts ≤ l1.min_commit_ts := by
  simp only [process_write, h0] at hp
  split at hp
  · -- live matching lock
    simp only [liveLock] at hp
    split at hp
    · -- expired: the lock is removed
      simp only [check_write_and_rollback_lock, Except.ok.injEq] at hp
      subst hp
      simp at h1
    · split at hp
      · -- push branch
        rename_i hcond
        simp only [Bool.and_eq_true, Bool.not_eq_true', decide_eq_true_eq] at hcond
        split at hp
        · exact absurd hp (by simp)
        · simp only [Except.ok.injEq] at hp
          subst hp
          simp only [Option.some.injEq] at h1
          subst h1
          have hge := hcond.2
          have hz := hcond.1.1
          simp only [tsIsZero, beq_eq_false_iff_ne, ne_eq] at hz
          simp only [tsNext]
          split <;> omega
      · -- no push: lock unchanged
        simp only [Except.ok.injEq] at hp
        subst hp
        simp only [Option.some.injEq] at h1
        subst h1
        exact Nat.le_refl _
  · -- mismatched or missing lock: the lock slot is untouched
    simp only [check_txn_status_missing_lock] at hp
    split at hp
    · split at hp <;>
        · simp only [Except.map, Except.ok.injEq] at hp
          subst hp
          simp only [Option.some.injEq] at h1
          subst h1
          exact Nat.le_refl _
    · split at hp
      · simp only [Except.map, Except.ok.injEq] at hp
        subst hp
        simp only [Option.some.injEq] at h1
        subst h1
        exact Nat.le_refl _
      · exact absurd hp (by simp [Except.map])

/-- C7 witness: the spec scenario lock at `ts = (5,0)` with `min_commit_ts =
(5,1)`, pushed by a check with `caller_start_ts = (6,0)`, `current_ts =
(7,0)`: the stored `min_commit_ts` does not decrease. -/
theorem c7_witness :
    tsCompose 5 1 ≤ tsCompose 7 0 ∧
    (tsCompose 5 1 : Nat) ≤
      (Lock.mk (tsCompose 5 0) 100 0 (tsCompose 7 0) false).min_commit_ts := by
  constructor
  · decide
  · exact c7_min_commit_ts_monotonic
      ⟨some ⟨tsCompose 5 0, 100, 0, tsCompose 5 1, false⟩, [], 0⟩
      (tsCompose 5 0) (tsCompose 6 0) (tsCompose 7 0) true
      ⟨tsCompose 5 0, 100, 0, tsCompose 5 1, false⟩
      ⟨tsCompose 5 0, 100, 0, tsCompose 7 0, false⟩
      (TxnStatus.Uncommitted ⟨tsCompose 5 0, 100, 0, tsCompose 7 0, false⟩ true,
        ⟨some ⟨tsCompose 5 0, 100, 0, tsCompose 7 0, false⟩, [], tsCompose 7 0⟩, none)
      rfl rfl rfl

end CheckTxn
